import Mathlib

/-!
# Shallow embedding of the Uber ride-hailing backend

This file embeds the persisted data model (SQLAlchemy models in `models.py`)
and the REST handlers of the `Uber` package (`api/trips.py`, `api/reviews.py`,
`api/auth.py`, `api/users.py`) as pure Lean functions over an explicit store,
and proves the specification's claims about them.

Conventions of the embedding:
* each table is a list of rows; `List.find?` models `query(...).filter(...).first()`;
* SQLAlchemy `Float` columns are embedded as `ℚ` with decimal rounding made
  explicit (`round2`, `round1` below model Python's `round(x, 2)` / `round(x, 1)`
  with the usual round-half-to-even tie rule on exact decimals);
* a handler takes the persisted store and returns the store after its commits
  together with either an `HTTPError` (from `raise HTTPException(...)`) or its
  response payload.  When a handler raises before committing, the session
  opened by `get_db` in `database.py` is closed without a commit, so the
  persisted store is returned unchanged;
* nullable columns are `Option`-valued, and SQL `col = NULL` comparisons
  (which match no row) are modelled by `sqlEqOpt`.
-/

/-- HTTP error raised by a handler: status code plus detail string
(`raise HTTPException(status_code=..., detail=...)`). -/
structure HTTPError where
  status_code : Nat
  detail : String
  deriving DecidableEq

/-- Row of the `users` table (`models.User`). -/
structure User where
  id : Nat
  full_name : String
  email : String
  phone : String
  password : String
  role : String := "client.html"
  home_address : Option String := none
  preferences : Option String := none
  favorites : Option String := none
  is_verified : Bool := false
  is_active : Option Bool := some true
  deriving DecidableEq

/-- Row of the `drivers` table (`models.Driver`). -/
structure Driver where
  id : Nat
  user_id : Nat
  car_model : String := ""
  car_category : String := "Economy"
  license_plate : String := ""
  description : Option String := none
  price_per_km : ℚ := 6/5
  schedule : String := "24/7"
  current_location : String := "Център"
  rating : ℚ := 5
  is_online : Bool := false
  total_earnings : ℚ := 0
  deriving DecidableEq

/-- Row of the `trips` table (`models.Trip`). -/
structure Trip where
  id : Nat
  client_id : Nat
  driver_id : Option Nat := none
  pickup_location : String := ""
  destination : String := ""
  status : String := "searching"
  payment_status : String := "pending"
  is_shared : Bool := false
  seats_available : Nat := 4
  is_urgent : Bool := false
  final_price : ℚ := 0
  car_category : String := "Standard"
  deriving DecidableEq

/-- Row of the `reviews` table (`models.Review`).  `rating` is an `Integer`
column and the API parameter is `rating: int`. -/
structure Review where
  id : Nat
  trip_id : Nat
  driver_id : Option Nat
  client_name : String
  rating : Int
  comment : String
  deriving DecidableEq

/-- Row of the `promo_codes` table (`models.PromoCode`). -/
structure PromoCode where
  id : Nat
  code : String
  discount_percentage : Int
  is_active : Bool := true
  deriving DecidableEq

/-- The persisted store: the six tables of the SQLite database (messages are
not needed by any claim, so the `messages` table is omitted from the state). -/
structure DB where
  users : List User := []
  drivers : List Driver := []
  trips : List Trip := []
  reviews : List Review := []
  promo_codes : List PromoCode := []
  deriving DecidableEq

/-- Replace the first element satisfying `p` (the row returned by `.first()`,
which is the row the ORM mutation and subsequent `UPDATE` affect). -/
def updateFirst (p : α → Bool) (f : α → α) : List α → List α
  | [] => []
  | x :: xs => if p x then f x :: xs else x :: updateFirst p f xs

/-- Autoincrement primary key for a freshly inserted row. -/
def nextId (ids : List Nat) : Nat := ids.foldr max 0 + 1

/-- SQL equality between a nullable column and a possibly-`None` Python value:
`col = NULL` matches no row. -/
def sqlEqOpt (a b : Option Nat) : Bool :=
  match a, b with
  | some x, some y => x == y
  | _, _ => false

/-- Round a rational to the nearest integer, ties to even (the tie rule of
Python's `round`). -/
def roundHalfEven (q : ℚ) : ℤ :=
  let f := ⌊q⌋
  let r := q - f
  if r < 1/2 then f
  else if 1/2 < r then f + 1
  else if f % 2 = 0 then f else f + 1

/-- Python's `round(x, 2)` on exact decimals. -/
def round2 (q : ℚ) : ℚ := (roundHalfEven (q * 100) : ℚ) / 100

/-- Python's `round(x, 1)` on exact decimals. -/
def round1 (q : ℚ) : ℚ := (roundHalfEven (q * 10) : ℚ) / 10

/-- `PATCH /trip/\x7btrip_id\x7d/accept` (`accept_trip` in `api/trips.py`). -/
def accept_trip (trip_id driver_id : Nat) (db : DB) : DB × Except HTTPError String :=
  match db.drivers.find? (fun d => d.id == driver_id) with
  | none => (db, .error ⟨404, "Driver not found."⟩)
  | some _ =>
    match db.trips.find? (fun t => t.id == trip_id) with
    | none => (db, .error ⟨404, "Trip not found."⟩)
    | some trip =>
      if trip.status ≠ "searching" then
        (db, .error ⟨400, "This trip is already taken or cancelled"⟩)
      else
        let trips1 := updateFirst (fun t => t.id == trip_id)
          (fun t => { t with driver_id := some driver_id, status := "accepted" }) db.trips
        ({ db with trips := trips1 }, .ok "Trip accepted successfully")

/-- `PATCH /trip/\x7btrip_id\x7d/cancel` (`cancel_trip` in `api/trips.py`). -/
def cancel_trip (trip_id : Nat) (db : DB) : DB × Except HTTPError String :=
  match db.trips.find? (fun t => t.id == trip_id) with
  | none => (db, .error ⟨404, "Request not found"⟩)
  | some trip =>
    if trip.status = "completed" ∨ trip.status = "cancelled" then
      (db, .error ⟨400, "Cannot cancel a trip with status: " ++ trip.status⟩)
    else
      let trips1 := updateFirst (fun t => t.id == trip_id)
        (fun t => { t with status := "cancelled" }) db.trips
      ({ db with trips := trips1 }, .ok "Trip cancelled successfully")

/-- Python's `str.upper()` on the ASCII strings used for promo codes. -/
def pyUpper (s : String) : String := String.mk (s.toList.map Char.toUpper)

/-- `GET /trip/calculate-price` (`calculate_price` in `api/trips.py`).
The handler performs no `add`/`commit`, so the store is returned unchanged. -/
def calculate_price (original_price : ℚ) (is_urgent : Bool) (promo_code : Option String)
    (db : DB) : DB × ℚ :=
  let p1 := if is_urgent then original_price * (3/2) else original_price
  let p2 :=
    match promo_code with
    | none => p1
    | some c =>
      if c = "" then p1
      else
        match db.promo_codes.find? (fun pc => pc.code == pyUpper c && pc.is_active) with
        | none => p1
        | some promo => p1 - ((promo.discount_percentage : ℚ) / 100) * p1
  (db, round2 p2)

/-- `PATCH /trip/\x7btrip_id\x7d/complete` (`complete_and_process_payment` in
`api/trips.py`).  The handler sets `trip.status`/`trip.payment_status` on the
session object before checking `trip.driver`; when that check raises, nothing
was committed and the session close in `get_db` discards the writes, so the
persisted store is returned unchanged on every error. -/
def complete_and_process_payment (trip_id : Nat) (db : DB) : DB × Except HTTPError String :=
  match db.trips.find? (fun t => t.id == trip_id) with
  | none => (db, .error ⟨404, "Trip not found"⟩)
  | some trip =>
    if trip.status = "completed" then
      (db, .error ⟨400, "Trip has already been completed"⟩)
    else
      let amount_to_pay : ℚ := if trip.final_price > 0 then trip.final_price else 10
      match trip.driver_id.bind (fun did => db.drivers.find? (fun d => d.id == did)) with
      | none => (db, .error ⟨400, "No driver assigned to this trip"⟩)
      | some driver =>
        let trips1 := updateFirst (fun t => t.id == trip_id)
          (fun t => { t with status := "completed", payment_status := "paid" }) db.trips
        let drivers1 := updateFirst (fun d => d.id == driver.id)
          (fun d => { d with total_earnings := d.total_earnings + amount_to_pay }) db.drivers
        ({ db with trips := trips1, drivers := drivers1 },
         .ok "Trip completed and payment processed successfully")

/-- `POST /reviews/add` (`leave_review` in `api/reviews.py`).  Returns the new
review id.  `trip.client.full_name` on a dangling `client_id` is an unhandled
`AttributeError`, surfaced as a 500 with nothing committed.  The rating
recomputation filters `Review.driver_id == driver_id`, which matches no row
when `driver_id` is `None` (SQL `= NULL`), and likewise the driver lookup
`Driver.id == None` finds nothing; the update runs only when both the driver
row and the average exist. -/
def leave_review (trip_id : Nat) (rating : Int) (comment : String) (db : DB) :
    DB × Except HTTPError Nat :=
  match db.trips.find? (fun t => t.id == trip_id) with
  | none => (db, .error ⟨404, "Trip not found"⟩)
  | some trip =>
    if trip.status ≠ "completed" then
      (db, .error ⟨400, "You can only rate completed trips"⟩)
    else
      match db.users.find? (fun u => u.id == trip.client_id) with
      | none => (db, .error ⟨500, "Internal Server Error"⟩)
      | some client =>
        let client_name := client.full_name
        let driver_id := trip.driver_id
        let rid := nextId (db.reviews.map (fun r => r.id))
        let new_review : Review :=
          { id := rid, trip_id := trip_id, driver_id := driver_id,
            client_name := client_name, rating := rating, comment := comment }
        let db1 : DB := { db with reviews := db.reviews ++ [new_review] }
        let ratings := (db1.reviews.filter (fun r => sqlEqOpt r.driver_id driver_id)).map
          (fun r => r.rating)
        let db2 : DB :=
          match driver_id.bind (fun did => db1.drivers.find? (fun d => d.id == did)) with
          | none => db1
          | some driver =>
            if ratings.isEmpty then db1
            else
              let drivers1 := updateFirst (fun d => d.id == driver.id)
                (fun d => { d with
                  rating := round1 ((ratings.map (fun z => (z : ℚ))).sum / ratings.length) })
                db1.drivers
              { db1 with drivers := drivers1 }
        (db2, .ok rid)

/-- Request body of `POST /register` (`schemas.UserCreate`). -/
structure UserCreate where
  email : String
  full_name : String
  phone : String
  role : String := "client.html"
  password : String
  deriving DecidableEq

/-- `POST /register` (`register_user` in `api/auth.py`).  Returns
`(id, full_name, role)` of the created user. -/
def register_user (user_in : UserCreate) (db : DB) :
    DB × Except HTTPError (Nat × String × String) :=
  match db.users.find? (fun u => u.email == user_in.email || u.phone == user_in.phone) with
  | some _ => (db, .error ⟨400, "Email or phone number is already registered!"⟩)
  | none =>
    let uid := nextId (db.users.map (fun u => u.id))
    let new_user : User :=
      { id := uid, full_name := user_in.full_name, email := user_in.email,
        phone := user_in.phone, password := user_in.password, role := user_in.role }
    ({ db with users := db.users ++ [new_user] },
     .ok (uid, new_user.full_name, new_user.role))

/-- `POST /login` (`login` in `api/auth.py`).  Returns `(id, full_name, role)`.
The blocked-account check is Python's `user.is_active is False`, i.e. the
stored value is exactly `False`. -/
def login (email password : String) (db : DB) : DB × Except HTTPError (Nat × String × String) :=
  match db.users.find? (fun u => u.email == email) with
  | none => (db, .error ⟨401, "Incorrect email or password."⟩)
  | some user =>
    if user.password ≠ password then
      (db, .error ⟨401, "Incorrect email or password."⟩)
    else if user.is_active = some false then
      (db, .error ⟨403, "Account is blocked. Please contact an administrator."⟩)
    else
      (db, .ok (user.id, user.full_name, user.role))

/-- Character-level model of Python's `s.split(sep)` for a one-character
separator. -/
def pySplit (sep : Char) (s : String) : List String :=
  (s.toList.splitOn sep).map (fun cs => String.mk cs)

/-- Character-level model of Python's `sep.join(l)` for a one-character
separator. -/
def pyJoin (sep : Char) (l : List String) : String :=
  String.mk (List.intercalate [sep] (l.map String.toList))

/-- Drop every copy of `c` from both ends. -/
def stripEnds (c : Char) (l : List Char) : List Char :=
  ((l.dropWhile (· == c)).reverse.dropWhile (· == c)).reverse

/-- Character-level model of Python's `s.strip(c)` for a one-character
argument. -/
def pyStrip (c : Char) (s : String) : String := String.mk (stripEnds c s.toList)

/-- `user.favorites.split(",") if user.favorites else []`: both `None` and the
empty string are falsy. -/
def favoritesList (fav : Option String) : List String :=
  match fav with
  | none => []
  | some s => if s = "" then [] else pySplit ',' s

/-- `POST /user/favorites/add` (`add_favorite_driver` in `api/users.py`). -/
def add_favorite_driver (user_id driver_id : Nat) (db : DB) : DB × Except HTTPError String :=
  match db.users.find? (fun u => u.id == user_id) with
  | none => (db, .error ⟨404, "User not found"⟩)
  | some user =>
    let current_favorites := favoritesList user.favorites
    if (toString driver_id) ∈ current_favorites then
      (db, .ok "Driver is already in your favorites list")
    else
      let favs := pyStrip ',' (pyJoin ',' (current_favorites ++ [toString driver_id]))
      let users1 := updateFirst (fun u => u.id == user_id)
        (fun u => { u with favorites := some favs }) db.users
      ({ db with users := users1 }, .ok "Driver added to favorites")

deriving instance DecidableEq for Except

/-! ## Helper definitions used by the theorem statements -/

/-- Ratings of all stored reviews whose `driver_id` equals the given driver. -/
def driverReviewRatings (reviews : List Review) (did : Nat) : List Int :=
  (reviews.filter (fun r => sqlEqOpt r.driver_id (some did))).map (fun r => r.rating)

/-- Arithmetic mean of a list of integer ratings, as a rational. -/
def meanOfRatings (l : List Int) : ℚ := (l.map (fun z => (z : ℚ))).sum / l.length

/-! ## Generic lemmas about the store operations -/

theorem find?_updateFirst (p : α → Bool) (f : α → α) (l : List α) (x : α)
    (hx : l.find? p = some x) (hf : p (f x) = true) :
    (updateFirst p f l).find? p = some (f x) := by
  induction l with
  | nil => simp at hx
  | cons a l ih =>
    by_cases ha : p a
    · rw [List.find?_cons_of_pos _ ha] at hx
      obtain rfl : a = x := by injection hx
      simp [updateFirst, ha, List.find?_cons_of_pos _ hf]
    · rw [List.find?_cons_of_neg _ (by simp [ha])] at hx
      simp [updateFirst, ha, List.find?_cons_of_neg, ih hx]

/-! ## Concrete stores used by witnesses and counterexamples -/

/-- A store with one active promo code `SALE` at 10 percent. -/
def saleDB : DB := { promo_codes := [{ id := 1, code := "SALE", discount_percentage := 10 }] }

/-- A driver row used by the concrete stores. -/
def demoDriver : Driver := { id := 1, user_id := 2 }

/-- A trip still searching for a driver. -/
def searchingTrip : Trip := { id := 1, client_id := 1, status := "searching", final_price := 5 }

/-- A store holding driver 1 and a searching trip 1. -/
def searchingTripDB : DB :=
  { users := [{ id := 1, full_name := "Ann", email := "ann@x.bg", phone := "1", password := "p" }],
    drivers := [demoDriver],
    trips := [searchingTrip] }

/-- A completed trip with a driver assigned. -/
def completedTrip : Trip :=
  { id := 1, client_id := 1, driver_id := some 1, status := "completed", final_price := 5 }

/-- A cancelled trip that still has a driver assigned. -/
def cancelledTrip : Trip :=
  { id := 1, client_id := 1, driver_id := some 1, status := "cancelled", final_price := 5 }

/-- A store holding a completed trip with a driver assigned. -/
def completedTripDB : DB :=
  { users := [{ id := 1, full_name := "Ann", email := "ann@x.bg", phone := "1", password := "p" }],
    drivers := [demoDriver],
    trips := [completedTrip] }

/-- A store holding a cancelled trip that still has a driver assigned. -/
def cancelledTripDB : DB :=
  { users := [{ id := 1, full_name := "Ann", email := "ann@x.bg", phone := "1", password := "p" }],
    drivers := [demoDriver],
    trips := [cancelledTrip] }

/-! ## C1: terminal statuses -/

/-- C1 (amended): a trip whose status is `completed` is terminal for all three
lifecycle operations, and a trip whose status is `cancelled` is left unchanged
by `Accept` and by `Cancel`; each of these calls fails and returns the store
unchanged.  (`Complete` is deliberately not listed for `cancelled`: it only
rejects status `completed`, see the counterexample.) -/
theorem completed_and_cancelled_terminal (db : DB) (tid : Nat) (t : Trip)
    (ht : db.trips.find? (fun x => x.id == tid) = some t) :
    (t.status = "completed" →
      (∀ did, ∃ e, accept_trip tid did db = (db, .error e)) ∧
      (∃ e, cancel_trip tid db = (db, .error e)) ∧
      (∃ e, complete_and_process_payment tid db = (db, .error e))) ∧
    (t.status = "cancelled" →
      (∀ did, ∃ e, accept_trip tid did db = (db, .error e)) ∧
      (∃ e, cancel_trip tid db = (db, .error e))) := by
  constructor
  · intro hs
    refine ⟨fun did => ?_, ?_, ?_⟩
    · cases hd : db.drivers.find? (fun d => d.id == did) with
      | none => exact ⟨⟨404, "Driver not found."⟩, by simp [accept_trip, hd]⟩
      | some d =>
        exact ⟨⟨400, "This trip is already taken or cancelled"⟩,
          by simp [accept_trip, hd, ht, hs]⟩
    · exact ⟨⟨400, "Cannot cancel a trip with status: " ++ t.status⟩,
        by simp [cancel_trip, ht, hs]⟩
    · exact ⟨⟨400, "Trip has already been completed"⟩,
        by simp [complete_and_process_payment, ht, hs]⟩
  · intro hs
    refine ⟨fun did => ?_, ?_⟩
    · cases hd : db.drivers.find? (fun d => d.id == did) with
      | none => exact ⟨⟨404, "Driver not found."⟩, by simp [accept_trip, hd]⟩
      | some d =>
        exact ⟨⟨400, "This trip is already taken or cancelled"⟩,
          by simp [accept_trip, hd, ht, hs]⟩
    · exact ⟨⟨400, "Cannot cancel a trip with status: " ++ t.status⟩,
        by simp [cancel_trip, ht, hs]⟩

/-- C1 witness: on a store holding a completed trip, all three operations
error out, and on a cancelled trip `Accept` and `Cancel` error out. -/
theorem completed_and_cancelled_terminal_witness :
    ((∀ did, ∃ e, accept_trip 1 did completedTripDB = (completedTripDB, .error e)) ∧
      (∃ e, cancel_trip 1 completedTripDB = (completedTripDB, .error e)) ∧
      (∃ e, complete_and_process_payment 1 completedTripDB = (completedTripDB, .error e))) ∧
    ((∀ did, ∃ e, accept_trip 1 did cancelledTripDB = (cancelledTripDB, .error e)) ∧
      (∃ e, cancel_trip 1 cancelledTripDB = (cancelledTripDB, .error e))) := by
  constructor
  · exact (completed_and_cancelled_terminal completedTripDB 1 completedTrip
      (by decide)).1 (by decide)
  · exact (completed_and_cancelled_terminal cancelledTripDB 1 cancelledTrip
      (by decide)).2 (by decide)

/-- C1 counterexample: `cancelled` is not terminal.  In `cancelledTripDB` the
trip has status `cancelled` and a driver assigned, and
`complete_and_process_payment` succeeds and moves it to `completed`. -/
theorem cancelled_trip_completable_cex :
    ((cancelledTripDB.trips.find? (fun t => t.id == 1)).map Trip.status = some "cancelled") ∧
    (complete_and_process_payment 1 cancelledTripDB).2 =
      .ok "Trip completed and payment processed successfully" ∧
    (((complete_and_process_payment 1 cancelledTripDB).1.trips.find?
        (fun t => t.id == 1)).map Trip.status = some "completed") := by
  refine ⟨by decide, by decide, by decide⟩

/-! ## C2: Accept -/

/-- C2: when trip and driver both resolve, `Accept` succeeds iff the trip's
prior status is `searching`; on success the trip's `driver_id` is the given
driver and its status is `accepted`; otherwise it fails `InvalidState` (400),
and a dangling driver or trip id fails `NotFound` (404). -/
theorem accept_trip_spec (db : DB) (tid did : Nat) :
    (db.drivers.find? (fun d => d.id == did) = none →
      accept_trip tid did db = (db, .error ⟨404, "Driver not found."⟩)) ∧
    (∀ d, db.drivers.find? (fun x => x.id == did) = some d →
      db.trips.find? (fun t => t.id == tid) = none →
      accept_trip tid did db = (db, .error ⟨404, "Trip not found."⟩)) ∧
    (∀ d t, db.drivers.find? (fun x => x.id == did) = some d →
      db.trips.find? (fun x => x.id == tid) = some t →
      ((accept_trip tid did db).2 = .ok "Trip accepted successfully" ↔
        t.status = "searching") ∧
      (t.status = "searching" →
        (accept_trip tid did db).1.trips.find? (fun x => x.id == tid) =
          some { t with driver_id := some did, status := "accepted" }) ∧
      (t.status ≠ "searching" →
        accept_trip tid did db =
          (db, .error ⟨400, "This trip is already taken or cancelled"⟩))) := by
  refine ⟨?_, ?_, ?_⟩
  · intro hd; simp [accept_trip, hd]
  · intro d hd ht; simp [accept_trip, hd, ht]
  · intro d t hd ht
    by_cases hs : t.status = "searching"
    · refine ⟨by simp [accept_trip, hd, ht, hs], fun _ => ?_, fun h => absurd hs h⟩
      have hpt := List.find?_some ht
      have key := find?_updateFirst (fun x : Trip => x.id == tid)
        (fun x => { x with driver_id := some did, status := "accepted" }) db.trips t ht hpt
      simpa [accept_trip, hd, ht, hs] using key
    · refine ⟨by simp [accept_trip, hd, ht, hs], fun h => absurd h hs, fun _ => ?_⟩
      simp [accept_trip, hd, ht, hs]

/-- C2 witness: on a store with driver 1 and a searching trip 1, `Accept`
succeeds and sets the driver and status; on the cancelled-trip store it fails
with the invalid-state error. -/
theorem accept_trip_spec_witness :
    ((accept_trip 1 1 searchingTripDB).2 = .ok "Trip accepted successfully" ∧
      (accept_trip 1 1 searchingTripDB).1.trips.find? (fun x => x.id == 1) =
        some { searchingTrip with driver_id := some 1, status := "accepted" }) ∧
    accept_trip 1 1 cancelledTripDB =
      (cancelledTripDB, .error ⟨400, "This trip is already taken or cancelled"⟩) := by
  constructor
  · have h := (accept_trip_spec searchingTripDB 1 1).2.2 demoDriver searchingTrip rfl rfl
    exact ⟨h.1.mpr (by decide), h.2.1 (by decide)⟩
  · exact ((accept_trip_spec cancelledTripDB 1 1).2.2 demoDriver cancelledTrip
      rfl rfl).2.2 (by decide)

/-! ## C3: Cancel -/

/-- C3: for a trip present in the store, `Cancel` fails iff the prior status
is `completed` or `cancelled` (with the 400 invalid-state error); otherwise it
sets the status to `cancelled`; a dangling trip id fails `NotFound` (404). -/
theorem cancel_trip_spec (db : DB) (tid : Nat) :
    (db.trips.find? (fun t => t.id == tid) = none →
      cancel_trip tid db = (db, .error ⟨404, "Request not found"⟩)) ∧
    (∀ t, db.trips.find? (fun x => x.id == tid) = some t →
      ((∃ e, (cancel_trip tid db).2 = .error e) ↔
        (t.status = "completed" ∨ t.status = "cancelled")) ∧
      (t.status = "completed" ∨ t.status = "cancelled" →
        cancel_trip tid db =
          (db, .error ⟨400, "Cannot cancel a trip with status: " ++ t.status⟩)) ∧
      (¬(t.status = "completed" ∨ t.status = "cancelled") →
        (cancel_trip tid db).2 = .ok "Trip cancelled successfully" ∧
        (cancel_trip tid db).1.trips.find? (fun x => x.id == tid) =
          some { t with status := "cancelled" })) := by
  refine ⟨?_, ?_⟩
  · intro ht; simp [cancel_trip, ht]
  · intro t ht
    by_cases hs : t.status = "completed" ∨ t.status = "cancelled"
    · refine ⟨?_, fun _ => by simp [cancel_trip, ht, hs], fun h => absurd hs h⟩
      simp [cancel_trip, ht, hs]
    · refine ⟨?_, fun h => absurd h hs, fun _ => ⟨by simp [cancel_trip, ht, hs], ?_⟩⟩
      · simp [cancel_trip, ht, hs]
      · have hpt := List.find?_some ht
        have key := find?_updateFirst (fun x : Trip => x.id == tid)
          (fun x => { x with status := "cancelled" }) db.trips t ht hpt
        simpa [cancel_trip, ht, hs] using key

/-- C3 witness: the searching trip cancels successfully and ends up
`cancelled`; the completed trip is rejected with the invalid-state error and
the absent trip id 9 gives the 404. -/
theorem cancel_trip_spec_witness :
    ((cancel_trip 1 searchingTripDB).2 = .ok "Trip cancelled successfully" ∧
      (cancel_trip 1 searchingTripDB).1.trips.find? (fun x => x.id == 1) =
        some { searchingTrip with status := "cancelled" }) ∧
    cancel_trip 1 completedTripDB =
      (completedTripDB, .error ⟨400, "Cannot cancel a trip with status: completed"⟩) ∧
    cancel_trip 9 searchingTripDB = (searchingTripDB, .error ⟨404, "Request not found"⟩) := by
  refine ⟨?_, ?_, ?_⟩
  · exact ((cancel_trip_spec searchingTripDB 1).2 searchingTrip rfl).2.2 (by decide)
  · exact ((cancel_trip_spec completedTripDB 1).2 completedTrip rfl).2.1 (by decide)
  · exact (cancel_trip_spec searchingTripDB 9).1 rfl

/-! ## C4: CalculatePrice -/

/-- C4: `CalculatePrice` leaves the store unchanged and returns
`round2` of the price: the original price, multiplied by 1.5 first when
urgent, then reduced by the promo discount percentage when the uppercased
code matches an active `PromoCode`, and unchanged when the code is unknown
or inactive. -/
theorem calculate_price_spec (db : DB) (p : ℚ) (u : Bool) :
    ((calculate_price p u none db).1 = db ∧ ∀ c, (calculate_price p u (some c) db).1 = db) ∧
    (calculate_price p u none db).2 = round2 (if u then p * (3/2) else p) ∧
    (∀ c promo, c ≠ "" →
      db.promo_codes.find? (fun pc => pc.code == pyUpper c && pc.is_active) = some promo →
      (calculate_price p u (some c) db).2 =
        round2 ((if u then p * (3/2) else p) * (1 - (promo.discount_percentage : ℚ) / 100))) ∧
    (∀ c, c ≠ "" →
      db.promo_codes.find? (fun pc => pc.code == pyUpper c && pc.is_active) = none →
      (calculate_price p u (some c) db).2 = round2 (if u then p * (3/2) else p)) := by
  refine ⟨⟨rfl, fun c => rfl⟩, rfl, ?_, ?_⟩
  · intro c promo hc hf
    simp only [calculate_price, if_neg hc, hf]
    congr 1
    ring
  · intro c hc hf
    simp only [calculate_price, if_neg hc, hf]

/-- C4 witness: the three specified data points, on a store holding the
active promo code `SALE` at 10 percent and no code `FAKE`. -/
theorem calculate_price_spec_witness :
    (calculate_price 10 true none saleDB).2 = 15 ∧
    (calculate_price 100 false (some "SALE") saleDB).2 = 90 ∧
    (calculate_price 100 false (some "FAKE") saleDB).2 = 100 ∧
    (calculate_price 100 false (some "SALE") saleDB).1 = saleDB := by
  refine ⟨?_, ?_, ?_, ((calculate_price_spec saleDB 100 false).1.2 "SALE")⟩
  · have h := (calculate_price_spec saleDB 10 true).2.1
    rw [h]; norm_num [round2, roundHalfEven]
  · have h := (calculate_price_spec saleDB 100 false).2.2.1 "SALE"
      { id := 1, code := "SALE", discount_percentage := 10 } (by decide) (by decide)
    rw [h]; norm_num [round2, roundHalfEven]
  · have h := (calculate_price_spec saleDB 100 false).2.2.2 "FAKE" (by decide) (by decide)
    rw [h]; norm_num [round2, roundHalfEven]

/-! ## C5: Complete -/

/-- C5: for a trip that exists, is not yet `completed`, and whose `driver_id`
resolves to a driver, `Complete` succeeds, sets the trip's status to
`completed` and its payment status to `paid`, and increases that driver's
`total_earnings` by `final_price` when it is positive and by the flat fee 10
otherwise. -/
theorem complete_trip_payment_spec (db : DB) (tid did : Nat) (t : Trip) (d : Driver)
    (ht : db.trips.find? (fun x => x.id == tid) = some t)
    (hs : t.status ≠ "completed")
    (hdid : t.driver_id = some did)
    (hd : db.drivers.find? (fun x => x.id == did) = some d) :
    (complete_and_process_payment tid db).2 =
      .ok "Trip completed and payment processed successfully" ∧
    (complete_and_process_payment tid db).1.trips.find? (fun x => x.id == tid) =
      some { t with status := "completed", payment_status := "paid" } ∧
    (complete_and_process_payment tid db).1.drivers.find? (fun x => x.id == did) =
      some { d with total_earnings := d.total_earnings +
        (if t.final_price > 0 then t.final_price else 10) } := by
  have hdeq : d.id = did := by simpa using List.find?_some hd
  subst hdeq
  refine ⟨?_, ?_, ?_⟩
  · simp [complete_and_process_payment, ht, hs, hdid, hd]
  · have hpt := List.find?_some ht
    have key := find?_updateFirst (fun x : Trip => x.id == tid)
      (fun x => { x with status := "completed", payment_status := "paid" }) db.trips t ht hpt
    simpa [complete_and_process_payment, ht, hs, hdid, hd] using key
  · have hpd := List.find?_some hd
    have key := find?_updateFirst (fun x : Driver => x.id == d.id)
      (fun x => { x with total_earnings := x.total_earnings +
        (if t.final_price > 0 then t.final_price else 10) }) db.drivers d hd hpd
    simpa [complete_and_process_payment, ht, hs, hdid, hd] using key

/-- An accepted trip with zero final price. -/
def zeroPriceTrip : Trip :=
  { id := 1, client_id := 1, driver_id := some 1, status := "accepted", final_price := 0 }

/-- An accepted trip with final price 25. -/
def paidTrip : Trip :=
  { id := 1, client_id := 1, driver_id := some 1, status := "accepted", final_price := 25 }

/-- Store with driver 1 and the zero-price accepted trip. -/
def zeroPriceTripDB : DB := { drivers := [demoDriver], trips := [zeroPriceTrip] }

/-- Store with driver 1 and the price-25 accepted trip. -/
def paidTripDB : DB := { drivers := [demoDriver], trips := [paidTrip] }

/-- C5 witness: completing the zero-price trip credits the driver exactly 10,
completing the price-25 trip credits exactly 25, and the trip ends up
`completed`/`paid`. -/
theorem complete_trip_payment_spec_witness :
    ((complete_and_process_payment 1 zeroPriceTripDB).1.drivers.find? (fun x => x.id == 1) =
      some { demoDriver with total_earnings := 10 }) ∧
    ((complete_and_process_payment 1 paidTripDB).1.drivers.find? (fun x => x.id == 1) =
      some { demoDriver with total_earnings := 25 }) ∧
    (complete_and_process_payment 1 paidTripDB).2 =
      .ok "Trip completed and payment processed successfully" ∧
    (complete_and_process_payment 1 paidTripDB).1.trips.find? (fun x => x.id == 1) =
      some { paidTrip with status := "completed", payment_status := "paid" } := by
  have h0 := complete_trip_payment_spec zeroPriceTripDB 1 1 zeroPriceTrip demoDriver
    rfl (by decide) rfl rfl
  have h1 := complete_trip_payment_spec paidTripDB 1 1 paidTrip demoDriver
    rfl (by decide) rfl rfl
  refine ⟨?_, ?_, h1.1, h1.2.1⟩
  · have := h0.2.2
    simpa [zeroPriceTrip, demoDriver] using this
  · have := h1.2.2
    simpa [paidTrip, demoDriver] using this

/-! ## C6: errors leave the persisted store unchanged -/

/-- C6: every embedded operation that fails (`NotFound`, `InvalidState` /
`PreconditionFailed`, auth failures, and the 500 on a dangling client) leaves
the persisted store unchanged: nothing is committed before all checks pass,
and the session close in `get_db` discards uncommitted session writes. -/
theorem errors_leave_store_unchanged :
    (∀ db tid did e, (accept_trip tid did db).2 = .error e →
      (accept_trip tid did db).1 = db) ∧
    (∀ db tid e, (cancel_trip tid db).2 = .error e → (cancel_trip tid db).1 = db) ∧
    (∀ db tid e, (complete_and_process_payment tid db).2 = .error e →
      (complete_and_process_payment tid db).1 = db) ∧
    (∀ db tid rating comment e, (leave_review tid rating comment db).2 = .error e →
      (leave_review tid rating comment db).1 = db) ∧
    (∀ db user_in e, (register_user user_in db).2 = .error e →
      (register_user user_in db).1 = db) ∧
    (∀ db email password e, (login email password db).2 = .error e →
      (login email password db).1 = db) ∧
    (∀ db uid did e, (add_favorite_driver uid did db).2 = .error e →
      (add_favorite_driver uid did db).1 = db) := by
  refine ⟨?_, ?_, ?_, ?_, ?_, ?_, ?_⟩
  · intro db tid did e h
    cases hd : db.drivers.find? (fun d => d.id == did) with
    | none => simp [accept_trip, hd]
    | some d =>
      cases ht : db.trips.find? (fun t => t.id == tid) with
      | none => simp [accept_trip, hd, ht]
      | some t =>
        by_cases hs : t.status = "searching"
        · simp [accept_trip, hd, ht, hs] at h
        · simp [accept_trip, hd, ht, hs]
  · intro db tid e h
    cases ht : db.trips.find? (fun t => t.id == tid) with
    | none => simp [cancel_trip, ht]
    | some t =>
      by_cases hs : t.status = "completed" ∨ t.status = "cancelled"
      · simp [cancel_trip, ht, hs]
      · simp [cancel_trip, ht, hs] at h
  · intro db tid e h
    cases ht : db.trips.find? (fun t => t.id == tid) with
    | none => simp [complete_and_process_payment, ht]
    | some t =>
      by_cases hs : t.status = "completed"
      · simp [complete_and_process_payment, ht, hs]
      · cases hb : t.driver_id.bind (fun did => db.drivers.find? (fun d => d.id == did)) with
        | none => simp [complete_and_process_payment, ht, hs, hb]
        | some d => simp [complete_and_process_payment, ht, hs, hb] at h
  · intro db tid rating comment e h
    cases ht : db.trips.find? (fun t => t.id == tid) with
    | none => simp [leave_review, ht]
    | some t =>
      by_cases hs : t.status = "completed"
      · cases hc : db.users.find? (fun u => u.id == t.client_id) with
        | none => simp [leave_review, ht, hs, hc]
        | some c => simp [leave_review, ht, hs, hc] at h
      · simp [leave_review, ht, hs]
  · intro db user_in e h
    cases hf : db.users.find? (fun u => u.email == user_in.email || u.phone == user_in.phone) with
    | none => simp [register_user, hf] at h
    | some u => simp [register_user, hf]
  · intro db email password e h
    cases hf : db.users.find? (fun u => u.email == email) with
    | none => simp [login, hf]
    | some u =>
      by_cases hp : u.password = password
      · by_cases ha : u.is_active = some false
        · simp [login, hf, hp, ha]
        · simp [login, hf, hp, ha] at h
      · simp [login, hf, hp]
  · intro db uid did e h
    cases hu : db.users.find? (fun u => u.id == uid) with
    | none => simp [add_favorite_driver, hu]
    | some u =>
      by_cases hm : (toString did) ∈ favoritesList u.favorites
      · simp [add_favorite_driver, hu, hm] at h
      · simp [add_favorite_driver, hu, hm] at h

/-- An accepted trip with no driver assigned. -/
def noDriverTrip : Trip :=
  { id := 1, client_id := 1, driver_id := none, status := "accepted", final_price := 5 }

/-- Store holding the accepted trip without a driver. -/
def noDriverTripDB : DB := { trips := [noDriverTrip] }

/-- C6 witness: `Complete` failing with "no driver assigned" leaves the store
(and hence the trip's status and payment status) unchanged, and `LeaveReview`
rejecting a non-completed trip leaves the store (and hence the driver's
rating) unchanged. -/
theorem errors_leave_store_unchanged_witness :
    (complete_and_process_payment 1 noDriverTripDB).1 = noDriverTripDB ∧
    (leave_review 1 5 "great" searchingTripDB).1 = searchingTripDB := by
  constructor
  · exact errors_leave_store_unchanged.2.2.1 noDriverTripDB 1
      ⟨400, "No driver assigned to this trip"⟩ (by decide)
  · exact errors_leave_store_unchanged.2.2.2.1 searchingTripDB 1 5 "great"
      ⟨400, "You can only rate completed trips"⟩ (by decide)

/-! ## C7: LeaveReview and rating aggregation -/

/-- C7: for a trip with status `completed` whose client resolves,
`LeaveReview` appends a `Review` that copies the client's full name at this
instant, and then sets the trip's driver's rating to the arithmetic mean of
the ratings of all stored reviews for that `driver_id` (which now include the
new one), rounded to one decimal.  When the trip carries no `driver_id` the
SQL `= NULL` filters match nothing, the mean is undefined, and the drivers
table is left unchanged. -/
theorem leave_review_spec (db : DB) (tid : Nat) (rating : Int) (comment : String)
    (t : Trip) (c : User)
    (ht : db.trips.find? (fun x => x.id == tid) = some t)
    (hs : t.status = "completed")
    (hc : db.users.find? (fun u => u.id == t.client_id) = some c) :
    (leave_review tid rating comment db).2 = .ok (nextId (db.reviews.map (fun r => r.id))) ∧
    (leave_review tid rating comment db).1.reviews =
      db.reviews ++ [{ id := nextId (db.reviews.map (fun r => r.id)), trip_id := tid,
                       driver_id := t.driver_id, client_name := c.full_name,
                       rating := rating, comment := comment }] ∧
    (∀ did d, t.driver_id = some did →
      db.drivers.find? (fun x => x.id == did) = some d →
      (leave_review tid rating comment db).1.drivers.find? (fun x => x.id == did) =
        some { d with rating := round1 (meanOfRatings (driverReviewRatings
          ((leave_review tid rating comment db).1.reviews) did)) }) ∧
    (t.driver_id = none → (leave_review tid rating comment db).1.drivers = db.drivers) := by
  refine ⟨?_, ?_, ?_, ?_⟩
  · simp [leave_review, ht, hs, hc]
  · simp [leave_review, ht, hs, hc]
    split <;> (try split) <;> simp
  · intro did d hdid hd
    have hdeq : d.id = did := by simpa using List.find?_some hd
    subst hdeq
    have hpd := List.find?_some hd
    have key := find?_updateFirst (fun x : Driver => x.id == d.id)
      (fun x => { x with rating := round1 (meanOfRatings (driverReviewRatings
        ((leave_review tid rating comment db).1.reviews) d.id)) }) db.drivers d hd hpd
    simp only [leave_review, ht, hs, hc, hdid] at key ⊢
    simpa [leave_review, ht, hs, hc, hdid, hd, driverReviewRatings, meanOfRatings,
      sqlEqOpt] using key
  · intro hdid
    simp [leave_review, ht, hs, hc, hdid]

/-- The client user of the review scenarios. -/
def annUser : User :=
  { id := 1, full_name := "Ann", email := "a@x.bg", phone := "1", password := "p" }

/-- Driver 7, currently rated 5. -/
def reviewDriver : Driver := { id := 7, user_id := 2, rating := 5 }

/-- A completed trip of Ann with driver 7. -/
def reviewTrip : Trip := { id := 1, client_id := 1, driver_id := some 7, status := "completed" }

/-- A pre-existing review of driver 7 with rating 5. -/
def priorReview : Review :=
  { id := 1, trip_id := 9, driver_id := some 7, client_name := "Bob", rating := 5, comment := "x" }

/-- Store for the review scenario. -/
def reviewDB : DB :=
  { users := [annUser], drivers := [reviewDriver], trips := [reviewTrip],
    reviews := [priorReview] }

/-- A completed trip with no driver recorded. -/
def orphanTrip : Trip := { id := 3, client_id := 1, driver_id := none, status := "completed" }

/-- Store holding the driverless completed trip. -/
def orphanDB : DB := { users := [annUser], trips := [orphanTrip], drivers := [reviewDriver] }

/-- The review row expected from the witness scenario. -/
def annReview : Review :=
  { id := 2, trip_id := 1, driver_id := some 7, client_name := "Ann", rating := 4,
    comment := "ok" }

/-- C7 witness: reviewing Ann's completed trip with rating 4 appends a review
carrying her name, and driver 7's rating becomes the rounded mean of the
ratings [5, 4], i.e. 4.5; on the driverless completed trip the drivers table
is untouched. -/
theorem leave_review_spec_witness :
    (leave_review 1 4 "ok" reviewDB).2 = .ok 2 ∧
    (leave_review 1 4 "ok" reviewDB).1.reviews = reviewDB.reviews ++ [annReview] ∧
    (leave_review 1 4 "ok" reviewDB).1.drivers.find? (fun x => x.id == 7) =
      some { reviewDriver with rating := 9/2 } ∧
    (leave_review 3 5 "x" orphanDB).1.drivers = orphanDB.drivers := by
  obtain ⟨h1, h2, h3, -⟩ := leave_review_spec reviewDB 1 4 "ok" reviewTrip annUser
    rfl rfl rfl
  refine ⟨?_, ?_, ?_, ?_⟩
  · rw [h1]; decide
  · rw [h2]; decide
  · have h3' := h3 7 reviewDriver rfl rfl
    rw [h2] at h3'
    rw [h3']
    norm_num [reviewDB, priorReview, reviewTrip, annUser, reviewDriver, nextId,
      driverReviewRatings, meanOfRatings, sqlEqOpt, round1, roundHalfEven]
  · exact (leave_review_spec orphanDB 3 5 "x" orphanTrip annUser rfl rfl rfl).2.2.2 rfl

/-! ## C8: Register and uniqueness -/

/-- C8: `Register` rejects with the 400 duplicate error, creating nothing,
whenever some existing user shares the email or the phone; it succeeds and
appends exactly one user whenever both are distinct from all existing users;
consequently it preserves email-uniqueness and phone-uniqueness of the user
table. -/
theorem register_user_spec (db : DB) (user_in : UserCreate) :
    ((∃ u ∈ db.users, u.email = user_in.email ∨ u.phone = user_in.phone) →
      register_user user_in db =
        (db, .error ⟨400, "Email or phone number is already registered!"⟩)) ∧
    ((∀ u ∈ db.users, u.email ≠ user_in.email ∧ u.phone ≠ user_in.phone) →
      (register_user user_in db).2 =
        .ok (nextId (db.users.map (fun u => u.id)), user_in.full_name, user_in.role) ∧
      (register_user user_in db).1.users =
        db.users ++ [{ id := nextId (db.users.map (fun u => u.id)),
                       full_name := user_in.full_name, email := user_in.email,
                       phone := user_in.phone, password := user_in.password,
                       role := user_in.role }]) ∧
    ((db.users.map User.email).Nodup → ((register_user user_in db).1.users.map User.email).Nodup) ∧
    ((db.users.map User.phone).Nodup → ((register_user user_in db).1.users.map User.phone).Nodup) := by
  have hchar : ∀ u : User,
      (fun x : User => x.email == user_in.email || x.phone == user_in.phone) u = true ↔
      (u.email = user_in.email ∨ u.phone = user_in.phone) := by
    intro u; simp
  refine ⟨?_, ?_, ?_, ?_⟩
  · intro ⟨u, hu, hor⟩
    have : ∃ v, db.users.find? (fun x => x.email == user_in.email ||
        x.phone == user_in.phone) = some v := by
      rw [← Option.isSome_iff_exists, List.find?_isSome]
      exact ⟨u, hu, by simpa [hchar u]⟩
    obtain ⟨v, hv⟩ := this
    simp [register_user, hv]
  · intro hall
    have hnone : db.users.find? (fun x => x.email == user_in.email ||
        x.phone == user_in.phone) = none := by
      rw [List.find?_eq_none]
      intro u hu
      have := hall u hu
      simp [this.1, this.2]
    exact ⟨by simp [register_user, hnone], by simp [register_user, hnone]⟩
  · intro hnd
    cases hf : db.users.find? (fun x => x.email == user_in.email ||
        x.phone == user_in.phone) with
    | some v => simpa [register_user, hf] using hnd
    | none =>
      have hall := List.find?_eq_none.mp hf
      simp only [register_user, hf]
      simp only [List.map_append, List.map_cons, List.map_nil]
      rw [List.nodup_append]
      refine ⟨hnd, List.nodup_singleton _, ?_⟩
      intro e he hmem
      simp only [List.mem_singleton] at hmem
      subst hmem
      obtain ⟨u, hu, hue⟩ := List.mem_map.mp he
      have := hall u hu
      simp only [Bool.or_eq_true, beq_iff_eq, not_or] at this
      exact this.1 hue
  · intro hnd
    cases hf : db.users.find? (fun x => x.email == user_in.email ||
        x.phone == user_in.phone) with
    | some v => simpa [register_user, hf] using hnd
    | none =>
      have hall := List.find?_eq_none.mp hf
      simp only [register_user, hf]
      simp only [List.map_append, List.map_cons, List.map_nil]
      rw [List.nodup_append]
      refine ⟨hnd, List.nodup_singleton _, ?_⟩
      intro e he hmem
      simp only [List.mem_singleton] at hmem
      subst hmem
      obtain ⟨u, hu, hue⟩ := List.mem_map.mp he
      have := hall u hu
      simp only [Bool.or_eq_true, beq_iff_eq, not_or] at this
      exact this.2 hue

/-- A registration request. -/
def bobSignup : UserCreate :=
  { email := "bob@x.bg", full_name := "Bob", phone := "2", role := "client", password := "w" }

/-- A registration request reusing Ann's email. -/
def dupSignup : UserCreate :=
  { email := "a@x.bg", full_name := "Eve", phone := "3", role := "client", password := "w" }

/-- Store holding only Ann. -/
def annDB : DB := { users := [annUser] }

/-- C8 witness: registering Bob with fresh email and phone succeeds and
appends him; registering Eve with Ann's email is rejected and the store is
unchanged. -/
theorem register_user_spec_witness :
    (register_user bobSignup annDB).2 = .ok (2, "Bob", "client") ∧
    (register_user bobSignup annDB).1.users.length = 2 ∧
    register_user dupSignup annDB =
      (annDB, .error ⟨400, "Email or phone number is already registered!"⟩) := by
  have hok := (register_user_spec annDB bobSignup).2.1 (by decide)
  refine ⟨?_, ?_, ?_⟩
  · rw [hok.1]; decide
  · rw [hok.2]; decide
  · exact (register_user_spec annDB dupSignup).1 ⟨annUser, by decide, by decide⟩

/-! ## C10: Login and blocked accounts -/

/-- C10: `Login` never mutates the store; when the user found by email has
`is_active` exactly `False` it fails 403 even if the password matches; and a
successful login implies the resolved user's password matched and
`is_active` is not `False`. -/
theorem login_blocked_spec (db : DB) (email password : String) :
    (login email password db).1 = db ∧
    (∀ u, db.users.find? (fun x => x.email == email) = some u →
      u.is_active = some false → u.password = password →
      (login email password db).2 =
        .error ⟨403, "Account is blocked. Please contact an administrator."⟩) ∧
    (∀ r, (login email password db).2 = .ok r →
      ∃ u, db.users.find? (fun x => x.email == email) = some u ∧
        u.password = password ∧ u.is_active ≠ some false) := by
  refine ⟨?_, ?_, ?_⟩
  · cases hf : db.users.find? (fun u => u.email == email) with
    | none => simp [login, hf]
    | some u =>
      by_cases hp : u.password = password
      · by_cases ha : u.is_active = some false
        · simp [login, hf, hp, ha]
        · simp [login, hf, hp, ha]
      · simp [login, hf, hp]
  · intro u hf ha hp
    simp [login, hf, hp, ha]
  · intro r hr
    cases hf : db.users.find? (fun u => u.email == email) with
    | none => simp [login, hf] at hr
    | some u =>
      by_cases hp : u.password = password
      · by_cases ha : u.is_active = some false
        · simp [login, hf, hp, ha] at hr
        · exact ⟨u, rfl, hp, ha⟩
      · simp [login, hf, hp] at hr

/-! ## C9: favorites — string-level groundwork -/

theorem string_ne_empty_of_toList (s : String) (h : s.toList ≠ []) : s ≠ "" := by
  intro he
  exact h (by rw [he]; rfl)

theorem toList_ne_nil_of_ne_empty (s : String) (h : s ≠ "") : s.toList ≠ [] := by
  intro he
  apply h
  have : String.mk s.toList = String.mk [] := by rw [he]
  simpa using this

theorem digitChar_ne_comma (m : Nat) : Nat.digitChar m ≠ ',' := by
  by_cases h : m < 16
  · interval_cases m <;> decide
  · have h0 : ¬ m = 0 := by omega
    have h1 : ¬ m = 1 := by omega
    have h2 : ¬ m = 2 := by omega
    have h3 : ¬ m = 3 := by omega
    have h4 : ¬ m = 4 := by omega
    have h5 : ¬ m = 5 := by omega
    have h6 : ¬ m = 6 := by omega
    have h7 : ¬ m = 7 := by omega
    have h8 : ¬ m = 8 := by omega
    have h9 : ¬ m = 9 := by omega
    have h10 : ¬ m = 10 := by omega
    have h11 : ¬ m = 11 := by omega
    have h12 : ¬ m = 12 := by omega
    have h13 : ¬ m = 13 := by omega
    have h14 : ¬ m = 14 := by omega
    have h15 : ¬ m = 15 := by omega
    simp [Nat.digitChar, h0, h1, h2, h3, h4, h5, h6, h7, h8, h9, h10, h11, h12,
      h13, h14, h15]

theorem toDigitsCore_chars (b f : Nat) : ∀ (n : Nat) (acc : List Char),
    ∀ ch ∈ Nat.toDigitsCore b f n acc, ch ∈ acc ∨ ∃ m, ch = Nat.digitChar m := by
  induction f with
  | zero => intro n acc ch hch; exact .inl hch
  | succ f ih =>
    intro n acc ch hch
    simp only [Nat.toDigitsCore] at hch
    by_cases h0 : n / b = 0
    · rw [if_pos h0] at hch
      rcases List.mem_cons.mp hch with h | h
      · exact .inr ⟨n % b, h⟩
      · exact .inl h
    · rw [if_neg h0] at hch
      rcases ih (n / b) (Nat.digitChar (n % b) :: acc) ch hch with h | h
      · rcases List.mem_cons.mp h with h' | h'
        · exact .inr ⟨n % b, h'⟩
        · exact .inl h'
      · exact .inr h

theorem toDigitsCore_length_ge (b : Nat) : ∀ (f n : Nat) (acc : List Char),
    acc.length ≤ (Nat.toDigitsCore b f n acc).length := by
  intro f
  induction f with
  | zero => intro n acc; simp [Nat.toDigitsCore]
  | succ f ih =>
    intro n acc
    simp only [Nat.toDigitsCore]
    by_cases h0 : n / b = 0
    · rw [if_pos h0]; simp
    · rw [if_neg h0]
      calc acc.length ≤ (Nat.digitChar (n % b) :: acc).length := by simp
        _ ≤ _ := ih (n / b) (Nat.digitChar (n % b) :: acc)

theorem toString_nat_toList (n : Nat) : (toString n).toList = Nat.toDigits 10 n := rfl

theorem comma_not_mem_toString_nat (n : Nat) : ¬ (',' ∈ (toString n).toList) := by
  rw [toString_nat_toList]
  intro hmem
  rcases toDigitsCore_chars 10 (n + 1) n [] ',' hmem with h | ⟨m, hm⟩
  · simp at h
  · exact digitChar_ne_comma m hm.symm

theorem toDigits_ne_nil (n : Nat) : Nat.toDigits 10 n ≠ [] := by
  show Nat.toDigitsCore 10 (n + 1) n [] ≠ []
  simp only [Nat.toDigitsCore]
  by_cases h0 : n / 10 = 0
  · rw [if_pos h0]; simp
  · rw [if_neg h0]
    intro hnil
    have := toDigitsCore_length_ge 10 n (n / 10) [Nat.digitChar (n % 10)]
    rw [hnil] at this
    simp at this

theorem toString_nat_ne_empty (n : Nat) : toString n ≠ "" := by
  intro h
  have h1 : (toString n).toList = [] := by rw [h]; rfl
  rw [toString_nat_toList] at h1
  exact toDigits_ne_nil n h1

theorem intercalate_cons_two (c : α) (a b : List α) (t : List (List α)) :
    List.intercalate [c] (a :: b :: t) = a ++ c :: List.intercalate [c] (b :: t) := by
  simp [List.intercalate, List.intersperse]

theorem intercalate_head (c : α) (a : List α) (t : List (List α)) (ha : a ≠ []) :
    (List.intercalate [c] (a :: t)).head? = a.head? := by
  cases t with
  | nil => simp [List.intercalate]
  | cons b t =>
    rw [intercalate_cons_two]
    exact List.head?_append_of_ne_nil a ha

theorem intercalate_getLast (c : α) (L : List (List α)) (x : List α) (hx : x ≠ []) :
    (List.intercalate [c] (L ++ [x])).getLast? = x.getLast? := by
  induction L with
  | nil => simp [List.intercalate]
  | cons a L ih =>
    have hne : L ++ [x] ≠ [] := by simp
    obtain ⟨b, t, hbt⟩ : ∃ b t, L ++ [x] = b :: t := by
      cases hL : L ++ [x] with
      | nil => exact absurd hL hne
      | cons b t => exact ⟨b, t, rfl⟩
    have ih' : (List.intercalate [c] (b :: t)).getLast? = x.getLast? := by
      rw [← hbt]; exact ih
    have hxl : x.getLast?.isSome := List.getLast?_isSome.mpr hx
    have hZ : List.intercalate [c] (b :: t) ≠ [] := by
      intro h0
      rw [h0] at ih'
      rw [← ih'] at hxl
      simp at hxl
    calc (List.intercalate [c] ((a :: L) ++ [x])).getLast?
        = (List.intercalate [c] (a :: b :: t)).getLast? := by rw [List.cons_append, hbt]
      _ = (a ++ c :: List.intercalate [c] (b :: t)).getLast? := by rw [intercalate_cons_two]
      _ = (c :: List.intercalate [c] (b :: t)).getLast? := List.getLast?_append_cons a c _
      _ = ([c] ++ List.intercalate [c] (b :: t)).getLast? := rfl
      _ = (List.intercalate [c] (b :: t)).getLast? := List.getLast?_append_of_ne_nil [c] hZ
      _ = x.getLast? := ih'

theorem stripEnds_eq_self (c : Char) (cs : List Char)
    (h1 : cs.head? ≠ some c) (h2 : cs.getLast? ≠ some c) : stripEnds c cs = cs := by
  have hd : cs.dropWhile (· == c) = cs := by
    cases cs with
    | nil => rfl
    | cons a t =>
      have ha : (a == c) = false := by
        simp only [List.head?_cons, ne_eq, Option.some.injEq] at h1
        simpa using h1
      simp [List.dropWhile_cons, ha]
  have h2' : cs.reverse.head? ≠ some c := by
    rw [List.head?_reverse]; exact h2
  have hr : cs.reverse.dropWhile (· == c) = cs.reverse := by
    cases hcr : cs.reverse with
    | nil => rfl
    | cons a t =>
      have ha : (a == c) = false := by
        rw [hcr] at h2'
        simp only [List.head?_cons, ne_eq, Option.some.injEq] at h2'
        simpa using h2'
      simp [List.dropWhile_cons, ha]
  rw [stripEnds, hd, hr, List.reverse_reverse]

theorem pySplit_pyJoin (c : Char) (l : List String) (hl : l ≠ [])
    (hc : ∀ s ∈ l, ¬ (c ∈ s.toList)) : pySplit c (pyJoin c l) = l := by
  have hmap : l.map String.toList ≠ [] := by simpa using hl
  have hx : ∀ cs ∈ l.map String.toList, c ∉ cs := by
    intro cs hcs
    obtain ⟨s, hs, rfl⟩ := List.mem_map.mp hcs
    exact hc s hs
  show ((String.mk (List.intercalate [c] (l.map String.toList))).toList.splitOn c).map
    (fun cs => String.mk cs) = l
  rw [show (String.mk (List.intercalate [c] (l.map String.toList))).toList =
    List.intercalate [c] (l.map String.toList) from rfl]
  rw [@List.splitOn_intercalate Char (l.map String.toList) _ c hx hmap, List.map_map]
  have : ((fun cs => String.mk cs) ∘ String.toList) = id := funext (fun s => rfl)
  rw [this, List.map_id]

theorem pyJoin_head_ne (c : Char) (s : String) (t : List String) (hs : s ≠ "")
    (hcs : ¬ (c ∈ s.toList)) : (pyJoin c (s :: t)).toList.head? ≠ some c := by
  have hsl : s.toList ≠ [] := toList_ne_nil_of_ne_empty s hs
  show (List.intercalate [c] ((s :: t).map String.toList)).head? ≠ some c
  rw [List.map_cons, intercalate_head c s.toList (t.map String.toList) hsl]
  intro hh
  exact hcs (List.mem_of_mem_head? hh)

theorem pyJoin_getLast_ne (c : Char) (l : List String) (x : String) (hx : x ≠ "")
    (hcx : ¬ (c ∈ x.toList)) : (pyJoin c (l ++ [x])).toList.getLast? ≠ some c := by
  have hxl : x.toList ≠ [] := toList_ne_nil_of_ne_empty x hx
  show (List.intercalate [c] ((l ++ [x]).map String.toList)).getLast? ≠ some c
  rw [List.map_append, List.map_singleton,
    intercalate_getLast c (l.map String.toList) x.toList hxl]
  intro hh
  exact hcx (List.mem_of_mem_getLast? hh)

theorem pyJoin_ne_empty (c : Char) (s : String) (t : List String) (hs : s ≠ "") :
    pyJoin c (s :: t) ≠ "" := by
  apply string_ne_empty_of_toList
  show List.intercalate [c] ((s :: t).map String.toList) ≠ []
  rw [List.map_cons]
  intro hnil
  have := intercalate_head c s.toList (t.map String.toList)
    (toList_ne_nil_of_ne_empty s hs)
  rw [hnil] at this
  simp only [List.head?_nil] at this
  have hsl := toList_ne_nil_of_ne_empty s hs
  cases hc : s.toList with
  | nil => exact hsl hc
  | cons a u => rw [hc] at this; simp at this

/-- Appending a fresh id and re-splitting recovers exactly the extended list,
for well-formed favorites entries (nonempty, comma-free). -/
theorem favoritesList_roundTrip (l : List String) (x : String)
    (h : ∀ s ∈ l ++ [x], s ≠ "" ∧ ¬ (',' ∈ s.toList)) :
    favoritesList (some (pyStrip ',' (pyJoin ',' (l ++ [x])))) = l ++ [x] := by
  obtain ⟨s, t, hst⟩ : ∃ s t, l ++ [x] = s :: t := by
    cases hL : l ++ [x] with
    | nil => simp at hL
    | cons s t => exact ⟨s, t, rfl⟩
  have hsmem : s ∈ l ++ [x] := hst ▸ List.mem_cons_self s t
  have hxmem : x ∈ l ++ [x] := List.mem_append_right l (List.mem_singleton.mpr rfl)
  have hhead : (pyJoin ',' (l ++ [x])).toList.head? ≠ some ',' := by
    rw [hst]; exact pyJoin_head_ne ',' s t (h s hsmem).1 (h s hsmem).2
  have hlast : (pyJoin ',' (l ++ [x])).toList.getLast? ≠ some ',' :=
    pyJoin_getLast_ne ',' l x (h x hxmem).1 (h x hxmem).2
  have hstrip : pyStrip ',' (pyJoin ',' (l ++ [x])) = pyJoin ',' (l ++ [x]) := by
    show String.mk (stripEnds ',' (pyJoin ',' (l ++ [x])).toList) = pyJoin ',' (l ++ [x])
    rw [stripEnds_eq_self ',' _ hhead hlast]
    rfl
  have hne : pyJoin ',' (l ++ [x]) ≠ "" := by
    rw [hst]; exact pyJoin_ne_empty ',' s t (h s hsmem).1
  rw [hstrip]
  show favoritesList (some (pyJoin ',' (l ++ [x]))) = l ++ [x]
  rw [favoritesList]
  rw [if_neg hne]
  exact pySplit_pyJoin ',' (l ++ [x]) (by simp) (fun s hs => (h s hs).2)

/-- C9: adding a favorite driver is idempotent.  For a user whose favorites
entries are well-formed (nonempty, comma-free — as every string this endpoint
itself produces is), adding an id already present leaves the store unchanged
and answers with the "already in favorites" signal; adding a fresh id appends
exactly that id to the stored comma-delimited list; and the extended list has
no duplicates when the original had none, so no id ever appears twice. -/
theorem add_favorite_driver_spec (db : DB) (uid did : Nat) (u : User)
    (hu : db.users.find? (fun x => x.id == uid) = some u)
    (hwf : ∀ s ∈ favoritesList u.favorites, s ≠ "" ∧ ¬ (',' ∈ s.toList)) :
    (toString did ∈ favoritesList u.favorites →
      add_favorite_driver uid did db =
        (db, .ok "Driver is already in your favorites list")) ∧
    (toString did ∉ favoritesList u.favorites →
      (add_favorite_driver uid did db).2 = .ok "Driver added to favorites" ∧
      (add_favorite_driver uid did db).1.users.find? (fun x => x.id == uid) =
        some { u with favorites := some (pyStrip ',' (pyJoin ','
          (favoritesList u.favorites ++ [toString did]))) } ∧
      favoritesList (some (pyStrip ',' (pyJoin ','
        (favoritesList u.favorites ++ [toString did])))) =
          favoritesList u.favorites ++ [toString did]) ∧
    ((favoritesList u.favorites).Nodup → toString did ∉ favoritesList u.favorites →
      (favoritesList (some (pyStrip ',' (pyJoin ','
        (favoritesList u.favorites ++ [toString did]))))).Nodup) := by
  have hround : favoritesList (some (pyStrip ',' (pyJoin ','
      (favoritesList u.favorites ++ [toString did])))) =
        favoritesList u.favorites ++ [toString did] := by
    apply favoritesList_roundTrip
    intro s hs
    rcases List.mem_append.mp hs with h | h
    · exact hwf s h
    · rw [List.mem_singleton] at h
      subst h
      exact ⟨toString_nat_ne_empty did, comma_not_mem_toString_nat did⟩
  refine ⟨?_, ?_, ?_⟩
  · intro hmem
    simp [add_favorite_driver, hu, hmem]
  · intro hmem
    refine ⟨by simp [add_favorite_driver, hu, hmem], ?_, hround⟩
    have hpu := List.find?_some hu
    have key := find?_updateFirst (fun x : User => x.id == uid)
      (fun x => { x with favorites := some (pyStrip ',' (pyJoin ','
        (favoritesList u.favorites ++ [toString did]))) }) db.users u hu hpu
    simpa [add_favorite_driver, hu, hmem] using key
  · intro hnd hmem
    rw [hround]
    rw [List.nodup_append]
    refine ⟨hnd, List.nodup_singleton _, ?_⟩
    intro a ha hb
    rw [List.mem_singleton] at hb
    subst hb
    exact hmem ha

/-- A user whose favorites already hold drivers 3 and 4. -/
def favUser : User :=
  { id := 1, full_name := "A", email := "e@x.bg", phone := "7", password := "w",
    favorites := some "3,4" }

/-- Store holding that user. -/
def favDB : DB := { users := [favUser] }

/-- C9 witness: adding driver 4 again is a no-op with the "already in
favorites" message; adding driver 5 appends it, storing "3,4,5", which is
duplicate-free. -/
theorem add_favorite_driver_spec_witness :
    add_favorite_driver 1 4 favDB = (favDB, .ok "Driver is already in your favorites list") ∧
    (add_favorite_driver 1 5 favDB).2 = .ok "Driver added to favorites" ∧
    (add_favorite_driver 1 5 favDB).1.users.find? (fun x => x.id == 1) =
      some { favUser with favorites := some "3,4,5" } ∧
    (favoritesList (some "3,4,5")).Nodup := by
  have h := add_favorite_driver_spec favDB 1 5 favUser rfl (by decide)
  refine ⟨?_, (h.2.1 (by decide)).1, ?_, by decide⟩
  · exact (add_favorite_driver_spec favDB 1 4 favUser rfl (by decide)).1 (by decide)
  · have h2 := (h.2.1 (by decide)).2.1
    rw [h2]
    decide

/-- A blocked user with valid credentials. -/
def blockedUser : User :=
  { id := 5, full_name := "Mal", email := "m@x.bg", phone := "9", password := "pw",
    is_active := some false }

/-- Store holding the blocked user. -/
def blockedDB : DB := { users := [blockedUser] }

/-- C10 witness: logging in with the blocked user's correct credentials fails
with 403 and the store is unchanged. -/
theorem login_blocked_spec_witness :
    (login "m@x.bg" "pw" blockedDB).2 =
      .error ⟨403, "Account is blocked. Please contact an administrator."⟩ ∧
    (login "m@x.bg" "pw" blockedDB).1 = blockedDB := by
  refine ⟨?_, (login_blocked_spec blockedDB "m@x.bg" "pw").1⟩
  exact (login_blocked_spec blockedDB "m@x.bg" "pw").2.1 blockedUser rfl rfl rfl
